import Mathlib

/-!
Shallow embedding of `healthcareai/common/model_eval.py`.

Numeric values (numpy floats) are modelled as rationals `ℚ`.  Calls into the
external statistical library (sklearn fit/predict, curve construction, score
computation) are modelled as oracle fields of the argument structures: the
claims under study are about the orchestration code of this module, not about
sklearn's internals.  Side effects (console prints, pickle file reads/writes,
plots, library computations) are recorded in an explicit effect trace.
Python runtime failures (the explicit `raise`, `TypeError` from passing `None`
to a library metric, `NameError` from an unbound local) are modelled with
`Except String`.
-/

namespace ModelEval

/-- One observable side effect of the module: a model fit (plain or wrapped in
`GridSearchCV` with its `cv`, `scoring` and `n_jobs` arguments), a console
print (tagged with a short label, optionally carrying the numeric value
printed), a pickle file read or write by name, a plot window, or a call into
the external library that computes a curve or an area. -/
inductive Effect where
  | fitPlain : Effect
  | fitGrid (cv : Nat) (scoring : String) (njobs : Nat) : Effect
  | print (tag : String) : Effect
  | printVal (tag : String) (v : ℚ) : Effect
  | printRMSEofMSE (mse : ℚ) : Effect
  | printCutoff (cutoff a b : ℚ) : Effect
  | printTableRow (a b c : ℚ) : Effect
  | fileRead (name : String) : Effect
  | fileWrite (name : String) : Effect
  | plotROC : Effect
  | plotPR : Effect
  | computeRocCurve : Effect
  | computeAucArea : Effect
  | computePrCurve : Effect
  | computeApsArea : Effect
  deriving DecidableEq, Repr

/-- Modelled from the spec: `save_object_as_pickle` lives in
`healthcareai.common.output_utilities`, which is not part of this module's
source; per the spec it "writes pickle files by fixed names ... for model
persistence", i.e. a single file write of the given name. -/
def save_object_as_pickle (name : String) : List Effect :=
  [Effect.fileWrite name]

/-- Modelled from the spec: `load_pickle_file` lives in
`healthcareai.common.output_utilities`, which is not part of this module's
source; per the spec it "reads pickle files by fixed names", i.e. a single
file read of the given name. -/
def load_pickle_file (name : String) : List Effect :=
  [Effect.fileRead name]

/-- Modelled from the spec: `write_feature_importances` lives in
`healthcareai.common.feature_importances`, which is not part of this module's
source; the spec lists only the two pickle files as file interfaces and
describes the remaining output as "Console output: formatted metric
summaries", and the source comments call it "Print variable importance", so it
is modelled as console output with no file access. -/
def write_feature_importances : List Effect :=
  [Effect.print "feature importances"]

/-- `sklearn.metrics.mean_squared_error(y_true, y_pred)`: passing Python
`None` as `y_pred` raises a `TypeError` inside the library; otherwise the mean
of squared differences (defined for equal-length nonempty vectors, a
`ValueError` otherwise). -/
def mean_squared_error (y_true : List ℚ) : Option (List ℚ) → Except String ℚ
  | none => .error "TypeError: mean_squared_error with None input"
  | some yp =>
    if y_true.length = yp.length ∧ 0 < y_true.length then
      .ok ((List.zipWith (fun a b => (a - b) ^ 2) y_true yp).sum / y_true.length)
    else
      .error "ValueError: inconsistent input lengths"

/-- `sklearn.metrics.mean_absolute_error(y_true, y_pred)`, analogously. -/
def mean_absolute_error (y_true : List ℚ) : Option (List ℚ) → Except String ℚ
  | none => .error "TypeError: mean_absolute_error with None input"
  | some yp =>
    if y_true.length = yp.length ∧ 0 < y_true.length then
      .ok ((List.zipWith (fun a b => |a - b|) y_true yp).sum / y_true.length)
    else
      .error "ValueError: inconsistent input lengths"

/-- `print_regression_metrics(y_pred, y_pred_class, y_test)`: prints a header,
then `math.sqrt(mean_squared_error(y_test, y_pred_class))` (the printed RMSE
effect carries the MSE whose square root is printed), then
`mean_absolute_error(y_test, y_pred)`, then a footer.  A library error aborts
the remaining prints. -/
def print_regression_metrics (y_pred y_pred_class : Option (List ℚ))
    (y_test : List ℚ) : List Effect × Except String Unit :=
  let e0 := [Effect.print "##########", Effect.print "Model accuracy:"]
  match mean_squared_error y_test y_pred_class with
  | .error e => (e0, .error e)
  | .ok mse =>
    let e1 := e0 ++ [Effect.printRMSEofMSE mse]
    match mean_absolute_error y_test y_pred with
    | .error e => (e1, .error e)
    | .ok mae => (e1 ++ [Effect.printVal "Mean absolute error:" mae,
                         Effect.print "##########"], .ok ())

/-- `print_classification_metrics(pr_auc, roc_auc)`: three prints. -/
def print_classification_metrics (pr_auc roc_auc : ℚ) : List Effect :=
  [Effect.print "Metrics:", Effect.printVal "AU_ROC ScoreX:" roc_auc,
   Effect.printVal "AU_PR Score:" pr_auc]

/-- Arguments of `clfreport`.  `cores` is the `n_jobs` argument (default 4),
`algoHasFI` is `hasattr(algo, 'feature_importances_')` for a fitted `algo`
(false for linear models, true for random forests); `predProba`, `pred`,
`roc_auc_val`, `pr_auc_val` are the oracle outcomes of the sklearn calls
`predict_proba(X_test)[:, 1]`, `predict(X_test)`, `roc_auc_score` and
`auc(recall, precision)`. -/
structure ClfArgs where
  modeltype : String
  debug : Bool
  devcheck : String
  cores : Nat := 4
  tune : Bool := false
  use_saved_model : Bool := false
  algoHasFI : Bool := false
  y_test : List ℚ := []
  predProba : List ℚ := []
  pred : List ℚ := []
  roc_auc_val : ℚ := 0
  pr_auc_val : ℚ := 0
  deriving DecidableEq, Repr

/-- The shapes `clfreport` can return: `return y_pred` (line 123),
`return y_pred, roc_auc` (line 94), `return y_pred, roc_auc, clf`
(lines 100 and 106). -/
inductive ClfRet where
  | retPred (y : Option (List ℚ))
  | retPredAuc (y : Option (List ℚ)) (r : ℚ)
  | retPredAucClf (y : Option (List ℚ)) (r : ℚ)
  deriving DecidableEq, Repr

/-- `clfreport`: the locals `y_pred_class` and `y_pred` start as `None` and
`clf` as `algo`; with `devcheck == 'yesdev'` the model (wrapped in
`GridSearchCV(algo, param, cv=5, scoring='roc_auc', n_jobs=cores)` when
`tune`) is fitted and metrics are printed — the regression branch passes the
still-`None` `y_pred_class` to `print_regression_metrics`; with
`devcheck == 'notdev'` the model is loaded from `probability.pkl` when
`use_saved_model` and otherwise fitted and saved there; any other `devcheck`
falls through to `return y_pred` with both locals untouched. -/
def clfreport (a : ClfArgs) : List Effect × Except String ClfRet :=
  if a.devcheck = "yesdev" then
    let fitE : Effect :=
      if a.tune then Effect.fitGrid 5 "roc_auc" a.cores else Effect.fitPlain
    let head : List Effect :=
      (if a.debug then [Effect.print "clf object right before fitting main model",
                        Effect.print "clf"] else []) ++ [Effect.print "algo"]
    let fittedB : Bool := a.modeltype = "classification" || a.modeltype = "regression"
    let branch : List Effect × Except String (Option (List ℚ) × Option ℚ) :=
      if a.modeltype = "classification" then
        ([fitE] ++ print_classification_metrics a.pr_auc_val a.roc_auc_val,
         .ok (some a.predProba, some a.roc_auc_val))
      else if a.modeltype = "regression" then
        let pm := print_regression_metrics (some a.pred) none a.y_test
        ([fitE] ++ pm.1, pm.2.map fun _ => (some a.pred, none))
      else ([], .ok (none, none))
    match branch with
    | (be, .error e) => (head ++ be, .error e)
    | (be, .ok (y_pred, roc_auc)) =>
      let tuneE : List Effect :=
        if a.tune && fittedB then
          [Effect.print "Best hyper-parameters found after tuning:",
           Effect.print "best params"]
        else [Effect.print "No hyper-parameter tuning was done."]
      let pre := head ++ be ++ tuneE
      let hasFI : Bool := !a.tune && fittedB && a.algoHasFI
      let hasBestEst : Bool := a.tune && fittedB
      if !hasFI && !hasBestEst then
        match roc_auc with
        | none => (pre, .error "NameError: roc_auc referenced before assignment")
        | some r => (pre, .ok (ClfRet.retPredAuc y_pred r))
      else if hasFI then
        match roc_auc with
        | none => (pre ++ write_feature_importances,
                   .error "NameError: roc_auc referenced before assignment")
        | some r => (pre ++ write_feature_importances, .ok (ClfRet.retPredAucClf y_pred r))
      else if a.tune && fittedB && a.algoHasFI then
        match roc_auc with
        | none => (pre ++ write_feature_importances,
                   .error "NameError: roc_auc referenced before assignment")
        | some r => (pre ++ write_feature_importances, .ok (ClfRet.retPredAucClf y_pred r))
      else
        (pre, .ok (ClfRet.retPred y_pred))
  else if a.devcheck = "notdev" then
    let persistE : List Effect :=
      if a.use_saved_model then load_pickle_file "probability.pkl"
      else (if a.debug then [Effect.print "clf object right before fitting main model"]
            else []) ++ [Effect.fitPlain] ++ save_object_as_pickle "probability.pkl"
    let y_pred : Option (List ℚ) :=
      if a.modeltype = "classification" then some a.predProba
      else if a.modeltype = "regression" then some a.pred
      else none
    (persistE, .ok (ClfRet.retPred y_pred))
  else
    ([], .ok (ClfRet.retPred none))

/-- Arguments of `find_top_three_factors`.  `X_test` is the row list of
`X_test.values`, `cols` is `X_test.columns.values`, and `coef` is the oracle
outcome `clf.coef_` of the fitted or loaded factor-ranking model. -/
structure FtfArgs where
  debug : Bool := false
  model_type : String
  use_saved_model : Bool := false
  X_test : List (List ℚ)
  cols : List String
  coef : List ℚ
  deriving DecidableEq, Repr

/-- `np.argsort(-v)` as used on each row: the indices `0 .. v.length - 1`
ordered by descending value of `v` (numpy's default quicksort leaves the
order of ties unspecified; an insertion sort realises one conforming order). -/
def argsortDesc (v : List ℚ) : List Nat :=
  List.insertionSort (fun i j => v.getD j 0 ≤ v.getD i 0) (List.range v.length)

/-- `find_top_three_factors`: fit (classification: `LogisticRegression`,
regression: `LinearRegression`, saving `factorlogit.pkl` only on the
regression branch) or load `factorlogit.pkl`; compute
`res = X_test.values * clf.coef_` row by row; and for each row append the
column names at the first three positions of `np.argsort(-res[i])` to
`first_fact`, `second_fact`, `third_fact`. -/
def find_top_three_factors (a : FtfArgs) :
    List Effect × (List String × List String × List String) :=
  let persistE : List Effect :=
    if a.use_saved_model then load_pickle_file "factorlogit.pkl"
    else
      (if a.debug then [Effect.print "clf object right before fitting factor ranking model",
                        Effect.print "clf"] else []) ++
      (if a.model_type = "classification" then [Effect.fitPlain]
       else if a.model_type = "regression" then
         [Effect.fitPlain] ++ save_object_as_pickle "factorlogit.pkl"
       else [])
  let dbg1 : List Effect :=
    if a.debug then [Effect.print "Coeffs right before multiplic. to determine top 3 factors",
                     Effect.print "coef", Effect.print "X_test right before this multiplication",
                     Effect.print "X_test head"] else []
  let res : List (List ℚ) := a.X_test.map fun row => List.zipWith (· * ·) row a.coef
  let dbg2 : List Effect :=
    if a.debug then [Effect.print "Result of coef * Xtest row by row multiplication",
                     Effect.print "Sorting column importance rankings for each row in X_test..."]
    else []
  let first_fact := res.map fun r => a.cols.getD ((argsortDesc r).getD 0 0) ""
  let second_fact := res.map fun r => a.cols.getD ((argsortDesc r).getD 1 0) ""
  let third_fact := res.map fun r => a.cols.getD ((argsortDesc r).getD 2 0) ""
  let dbg3 : List Effect :=
    if a.debug then [Effect.print "Top three factors for top five rows:",
                     Effect.print "df head"] else []
  (persistE ++ dbg1 ++ dbg2 ++ dbg3, (first_fact, second_fact, third_fact))

/-- Arguments of `GenerateAUC`.  `rocFpr`, `rocTpr`, `rocThresh` and
`rocArea` are the oracle outcomes of `roc_curve(labels, predictions)` and
`auc(fpr, tpr)`; `prPrecision`, `prRecall`, `prThresh` and `prArea` those of
`precision_recall_curve` and `average_precision_score`. -/
structure AucArgs where
  predictions : List ℚ
  labels : List ℚ
  aucType : String := "SS"
  plotFlg : Bool := false
  allCutoffsFlg : Bool := false
  rocFpr : List ℚ := []
  rocTpr : List ℚ := []
  rocThresh : List ℚ := []
  rocArea : ℚ := 0
  prPrecision : List ℚ := []
  prRecall : List ℚ := []
  prThresh : List ℚ := []
  prArea : ℚ := 0
  deriving DecidableEq, Repr

/-- The dictionaries `GenerateAUC` can return:
`{'AU_ROC', 'BestCutoff', 'BestTpr', 'BestFpr'}` or
`{'AU_PR', 'BestCutoff', 'BestPrecision', 'BestRecall'}`. -/
inductive AucRet where
  | ss (area cutoff bestTpr bestFpr : ℚ)
  | pr (area cutoff bestPre bestRec : ℚ)
  deriving DecidableEq, Repr

/-- Python `str.upper()` (ASCII behaviour, as for the strings at issue):
upper-case every character. -/
def pyUpper (s : String) : String := ⟨s.data.map Char.toUpper⟩

/-- Elementwise `d = (fpr - 0)**2 + (tpr - 1)**2`. -/
def rocDist (fpr tpr : List ℚ) : List ℚ :=
  List.zipWith (fun f t => f ^ 2 + (t - 1) ^ 2) fpr tpr

/-- Elementwise `d = (precision - 1)**2 + (recall - 1)**2`. -/
def prDist (precisions recalls : List ℚ) : List ℚ :=
  List.zipWith (fun p r => (p - 1) ^ 2 + (r - 1) ^ 2) precisions recalls

/-- `np.where(d == np.min(d))[0][0]`: the first index at which a list attains
its minimum (0 on the empty list). -/
def firstMinIdx : List ℚ → Nat
  | [] => 0
  | [_] => 0
  | x :: y :: ys =>
    let j := firstMinIdx (y :: ys)
    if x ≤ (y :: ys).getD j 0 then 0 else j + 1

/-- `GenerateAUC`: first the explicit length check (`raise Exception('Data
vectors are not equal length!')`), then `aucType = aucType.upper()`, with a
console warning and fallback to `'SS'` for unknown types; the selected branch
computes its curve and area, prints the area and the suggested cutoff at the
first index minimising the squared distance to the ideal point, optionally
prints the full cutoff table and shows a plot, and returns its dictionary. -/
def generateAUC (a : AucArgs) : List Effect × Except String AucRet :=
  if a.predictions.length ≠ a.labels.length then
    ([], .error "Data vectors are not equal length!")
  else
    let u := pyUpper a.aucType
    let warnE : List Effect :=
      if u ≠ "SS" ∧ u ≠ "PR" then
        [Effect.print "Drawing ROC curve with Sensitivity/Specificity"] else []
    let t := if u ≠ "SS" ∧ u ≠ "PR" then "SS" else u
    if t = "SS" then
      let d := rocDist a.rocFpr a.rocTpr
      let i := firstMinIdx d
      let cutoff := a.rocThresh.getD i 0
      let bestTpr := a.rocTpr.getD i 0
      let bestFpr := a.rocFpr.getD i 0
      let e1 := warnE ++ [Effect.computeRocCurve, Effect.computeAucArea,
                          Effect.printVal "Area under ROC curve (AUC):" a.rocArea,
                          Effect.printCutoff cutoff bestTpr bestFpr]
      let e2 := if a.allCutoffsFlg then
          [Effect.print "Thresh TPR FPR"] ++
          (List.range a.rocThresh.length).map (fun k =>
            Effect.printTableRow (a.rocThresh.getD k 0) (a.rocTpr.getD k 0)
              (a.rocFpr.getD k 0))
        else []
      let e3 := if a.plotFlg then [Effect.plotROC] else []
      (e1 ++ e2 ++ e3, .ok (AucRet.ss a.rocArea cutoff bestTpr bestFpr))
    else
      let d := prDist a.prPrecision a.prRecall
      let i := firstMinIdx d
      let cutoff := a.prThresh.getD i 0
      let bestPre := a.prPrecision.getD i 0
      let bestRec := a.prRecall.getD i 0
      let e1 := warnE ++ [Effect.computePrCurve, Effect.computeApsArea,
                          Effect.printVal "Area under PR curve (AU_PR):" a.prArea,
                          Effect.printCutoff cutoff bestPre bestRec]
      let e2 := if a.allCutoffsFlg then
          [Effect.print "Thresh Precision Recall"] ++
          (List.range a.prThresh.length).map (fun k =>
            Effect.printTableRow (a.prThresh.getD k 0) (a.prPrecision.getD k 0)
              (a.prRecall.getD k 0))
        else []
      let e3 := if a.plotFlg then [Effect.plotPR] else []
      (e1 ++ e2 ++ e3, .ok (AucRet.pr a.prArea cutoff bestPre bestRec))

/-- The file name touched by an effect, if it is a file access. -/
def fileNameOf : Effect → Option String
  | .fileRead n => some n
  | .fileWrite n => some n
  | _ => none

/-- All file names read or written in an effect trace. -/
def fileNames (es : List Effect) : List String :=
  es.filterMap fileNameOf

/-- The coefficient-weighted product `X_test[i, j] * coef[j]` of row `i`,
column `j`. -/
def prodAt (a : FtfArgs) (i j : Nat) : ℚ :=
  (a.X_test.getD i []).getD j 0 * a.coef.getD j 0

/-- Concrete regression / `'yesdev'` arguments: the failing input of the
regression metrics path. -/
def clfRegYes : ClfArgs :=
  { modeltype := "regression", debug := false, devcheck := "yesdev",
    y_test := [1, 2], pred := [1, 2] }

/-- Concrete `'notdev'` arguments with `use_saved_model=True`. -/
def clfNotdevLoad : ClfArgs :=
  { modeltype := "classification", debug := false, devcheck := "notdev",
    use_saved_model := true }

/-- Concrete arguments whose `devcheck` is neither `'yesdev'` nor
`'notdev'`. -/
def clfOther : ClfArgs :=
  { modeltype := "classification", debug := false, devcheck := "production" }

/-- Concrete classification arguments for the factor-ranking model with
`use_saved_model=False`. -/
def ftfClassNoSave : FtfArgs :=
  { model_type := "classification", X_test := [[1, 2, 3]],
    cols := ["a", "b", "c"], coef := [1, 1, 1] }

/-- Concrete `GenerateAUC` arguments with unequal-length vectors. -/
def aucMismatch : AucArgs :=
  { predictions := [1, 2], labels := [0], aucType := "SS", plotFlg := true,
    allCutoffsFlg := true }

/-- Concrete `GenerateAUC` arguments with `aucType='SS'` and a three-point
ROC curve oracle. -/
def aucSS : AucArgs :=
  { predictions := [1, 2, 3], labels := [0, 1, 1], aucType := "SS",
    rocFpr := [0, (1 : ℚ)/2, 1], rocTpr := [0, 1, 1],
    rocThresh := [2, (1 : ℚ)/2, 0], rocArea := (3 : ℚ)/4 }

/-- Concrete `GenerateAUC` arguments with an unrecognised `aucType`. -/
def aucBad : AucArgs :=
  { aucMismatch with labels := [0, 1], aucType := "bogus" }

/-- C9: for every call to `clfreport` whose `devcheck` argument is neither
`'yesdev'` nor `'notdev'`, the function performs no model fitting, no console
output and no file read or write (empty effect trace), and returns `None`
(the local `y_pred` is still `None` at the final `return y_pred`). -/
theorem clfreport_other_devcheck_inert (a : ClfArgs)
    (h1 : a.devcheck ≠ "yesdev") (h2 : a.devcheck ≠ "notdev") :
    clfreport a = ([], .ok (ClfRet.retPred none)) := by
  unfold clfreport
  simp [h1, h2]

/-- Witness for C9 at `devcheck = "production"`. -/
theorem clfreport_other_devcheck_inert_witness :
    clfreport clfOther = ([], .ok (ClfRet.retPred none)) :=
  clfreport_other_devcheck_inert clfOther (by decide) (by decide)

/-- C8: every call to `clfreport` with `modeltype='regression'` and
`devcheck='yesdev'` raises (a `TypeError` from passing the still-`None`
`y_pred_class` into `mean_squared_error`) and never returns normally. -/
theorem clfreport_regression_yesdev_raises (a : ClfArgs)
    (hm : a.modeltype = "regression") (hd : a.devcheck = "yesdev") :
    (clfreport a).2 = .error "TypeError: mean_squared_error with None input" := by
  unfold clfreport
  simp [hm, hd, print_regression_metrics, mean_squared_error, Except.map]

/-- Witness for C8 at concrete regression / `'yesdev'` arguments. -/
theorem clfreport_regression_yesdev_raises_witness :
    (clfreport clfRegYes).2 = .error "TypeError: mean_squared_error with None input" :=
  clfreport_regression_yesdev_raises clfRegYes (by decide) (by decide)

/-- C4: the regression metrics path is broken.  At the failing input
(`modeltype='regression'`, `devcheck='yesdev'`), the call aborts with the
`TypeError` from `mean_squared_error(y_test, y_pred_class)` where
`y_pred_class` is still `None`, and no RMSE value (and no MAE value) is ever
printed — the trace stops at the `Model accuracy:` header. -/
theorem clfreport_regression_metrics_never_printed :
    (clfreport clfRegYes).2 = .error "TypeError: mean_squared_error with None input" ∧
    (clfreport clfRegYes).1 = [Effect.print "algo", Effect.fitPlain,
      Effect.print "##########", Effect.print "Model accuracy:"] := by
  constructor <;> rfl

/-- Every error `clfreport` can produce is one of the two modelled Python
runtime failures; in particular it is never the explicit exception message of
`GenerateAUC`. -/
theorem clfreport_error_msgs (b : ClfArgs) (e : String)
    (h : (clfreport b).2 = .error e) :
    e = "TypeError: mean_squared_error with None input" ∨
    e = "NameError: roc_auc referenced before assignment" := by
  unfold clfreport at h
  by_cases hd : b.devcheck = "yesdev"
  · by_cases hc : b.modeltype = "classification" <;>
      by_cases hr : b.modeltype = "regression" <;>
        simp_all [print_classification_metrics, print_regression_metrics,
          mean_squared_error, Except.map] <;>
        split_ifs at h <;> simp_all
  · by_cases hn : b.devcheck = "notdev" <;> simp_all

/-- C2: `GenerateAUC` raises its explicit exception exactly when the two data
vectors differ in length; the check happens before any computation, console
output, plotting or file access (the effect trace is empty on failure); and no
other explicit failure exists in the module (every other modelled error is a
library/runtime failure with a different message, and `find_top_three_factors`
has no failure path at all). -/
theorem generateAUC_length_check (a : AucArgs) :
    ((a.predictions.length ≠ a.labels.length) ↔
       (generateAUC a).2 = .error "Data vectors are not equal length!") ∧
    (a.predictions.length ≠ a.labels.length → (generateAUC a).1 = []) ∧
    (∀ e, (generateAUC a).2 = .error e → e = "Data vectors are not equal length!") ∧
    (∀ b : ClfArgs, ∀ e, (clfreport b).2 = .error e →
       e ≠ "Data vectors are not equal length!") := by
  refine ⟨?_, ?_, ?_, ?_⟩
  · constructor
    · intro hl
      unfold generateAUC
      simp [hl]
    · intro h
      by_contra hl
      unfold generateAUC at h
      simp [hl] at h
      split_ifs at h <;> simp_all
  · intro hl
    unfold generateAUC
    simp [hl]
  · intro e h
    by_cases hl : a.predictions.length ≠ a.labels.length
    · unfold generateAUC at h
      simp [hl] at h
      exact h.symm
    · unfold generateAUC at h
      simp [hl] at h
      split_ifs at h <;> simp_all
  · intro b e h hcontra
    rcases clfreport_error_msgs b e h with h1 | h1 <;> rw [h1] at hcontra <;>
      exact absurd hcontra (by decide)

/-- Witness for C2 at unequal-length concrete vectors. -/
theorem generateAUC_length_check_witness :
    (generateAUC aucMismatch).2 = .error "Data vectors are not equal length!" ∧
    (generateAUC aucMismatch).1 = [] :=
  ⟨(generateAUC_length_check aucMismatch).1.mp (by decide),
   (generateAUC_length_check aucMismatch).2.1 (by decide)⟩

/-- C10: for every `aucType` whose upper-cased form is neither `'SS'` nor
`'PR'`, `GenerateAUC` returns the same result as with `aucType='SS'`
(differing only in the extra console warning); and `aucType` matching is
case-insensitive — any two `aucType` strings with the same upper-cased form
produce identical behaviour, so `'ss'` and `'pr'` behave exactly like `'SS'`
and `'PR'`. -/
theorem generateAUC_aucType_fallback (a : AucArgs) :
    ((pyUpper a.aucType ≠ "SS" ∧ pyUpper a.aucType ≠ "PR") →
       (generateAUC a).2 = (generateAUC { a with aucType := "SS" }).2) ∧
    (∀ s t : String, pyUpper s = pyUpper t →
       generateAUC { a with aucType := s } = generateAUC { a with aucType := t }) := by
  constructor
  · rintro ⟨h1, h2⟩
    have hSS : pyUpper "SS" = "SS" := by decide
    unfold generateAUC
    dsimp only
    by_cases hl : a.predictions.length = a.labels.length <;>
      simp [hl, h1, h2, hSS]
  · intro s t hst
    unfold generateAUC
    dsimp only
    rw [hst]

/-- Witness for C10: `aucType='bogus'` returns the `'SS'` result, and
`'ss'` behaves exactly like `'SS'`. -/
theorem generateAUC_aucType_fallback_witness :
    (generateAUC aucBad).2 = (generateAUC { aucBad with aucType := "SS" }).2 ∧
    generateAUC { aucBad with aucType := "ss" } =
      generateAUC { aucBad with aucType := "SS" } :=
  ⟨(generateAUC_aucType_fallback aucBad).1 (by decide),
   (generateAUC_aucType_fallback aucBad).2 "ss" "SS" (by decide)⟩

@[simp] theorem fileNameOf_fitPlain : fileNameOf .fitPlain = none := rfl

@[simp] theorem fileNameOf_fitGrid (c : Nat) (s : String) (n : Nat) :
    fileNameOf (.fitGrid c s n) = none := rfl

@[simp] theorem fileNameOf_print (t : String) : fileNameOf (.print t) = none := rfl

@[simp] theorem fileNameOf_printVal (t : String) (v : ℚ) :
    fileNameOf (.printVal t v) = none := rfl

@[simp] theorem fileNameOf_printRMSEofMSE (m : ℚ) :
    fileNameOf (.printRMSEofMSE m) = none := rfl

@[simp] theorem fileNameOf_printCutoff (c a b : ℚ) :
    fileNameOf (.printCutoff c a b) = none := rfl

@[simp] theorem fileNameOf_printTableRow (a b c : ℚ) :
    fileNameOf (.printTableRow a b c) = none := rfl

@[simp] theorem fileNameOf_fileRead (n : String) :
    fileNameOf (.fileRead n) = some n := rfl

@[simp] theorem fileNameOf_fileWrite (n : String) :
    fileNameOf (.fileWrite n) = some n := rfl

@[simp] theorem fileNameOf_plotROC : fileNameOf .plotROC = none := rfl

@[simp] theorem fileNameOf_plotPR : fileNameOf .plotPR = none := rfl

@[simp] theorem fileNameOf_computeRocCurve : fileNameOf .computeRocCurve = none := rfl

@[simp] theorem fileNameOf_computeAucArea : fileNameOf .computeAucArea = none := rfl

@[simp] theorem fileNameOf_computePrCurve : fileNameOf .computePrCurve = none := rfl

@[simp] theorem fileNameOf_computeApsArea : fileNameOf .computeApsArea = none := rfl

/-- The file accesses of `clfreport`: exactly one access of
`probability.pkl` in `'notdev'` mode and none in any other mode. -/
theorem clfreport_fileNames (a : ClfArgs) :
    fileNames (clfreport a).1 =
      if a.devcheck = "notdev" then ["probability.pkl"] else [] := by
  unfold clfreport
  by_cases hd : a.devcheck = "yesdev"
  · have hnd : a.devcheck ≠ "notdev" := by rw [hd]; decide
    by_cases hc : a.modeltype = "classification" <;>
      by_cases hr : a.modeltype = "regression" <;>
        by_cases hb : a.debug <;> by_cases ht : a.tune <;>
          simp_all [print_classification_metrics, print_regression_metrics,
            mean_squared_error, Except.map, fileNames,
            write_feature_importances] <;>
          split_ifs <;> simp_all [fileNames]
  · by_cases hn : a.devcheck = "notdev" <;>
      by_cases hu : a.use_saved_model <;> by_cases hb : a.debug <;>
        simp_all [fileNames, load_pickle_file, save_object_as_pickle]

/-- C6: in `'notdev'` mode, `use_saved_model=True` loads the model from the
fixed name `probability.pkl` and writes nothing, while `use_saved_model=False`
fits the supplied model and saves it under exactly `probability.pkl`; and in
every mode, every file `clfreport` reads or writes is named
`probability.pkl`. -/
theorem clfreport_probability_pickle (a : ClfArgs) :
    (a.devcheck = "notdev" → a.use_saved_model = true →
       (clfreport a).1 = [Effect.fileRead "probability.pkl"] ∧
       ∀ n, Effect.fileWrite n ∉ (clfreport a).1) ∧
    (a.devcheck = "notdev" → a.use_saved_model = false →
       Effect.fitPlain ∈ (clfreport a).1 ∧
       Effect.fileWrite "probability.pkl" ∈ (clfreport a).1 ∧
       ∀ n, Effect.fileRead n ∉ (clfreport a).1) ∧
    (∀ n, n ∈ fileNames (clfreport a).1 → n = "probability.pkl") := by
  refine ⟨?_, ?_, ?_⟩
  · intro hd hu
    have hy : a.devcheck ≠ "yesdev" := by rw [hd]; decide
    unfold clfreport
    simp [hy, hd, hu, load_pickle_file]
  · intro hd hu
    have hy : a.devcheck ≠ "yesdev" := by rw [hd]; decide
    unfold clfreport
    by_cases hb : a.debug <;> simp [hy, hd, hu, hb, save_object_as_pickle]
  · intro n hn
    rw [clfreport_fileNames a] at hn
    split_ifs at hn <;> simp_all

/-- Witness for C6 at concrete `'notdev'` arguments with a saved model. -/
theorem clfreport_probability_pickle_witness :
    (clfreport clfNotdevLoad).1 = [Effect.fileRead "probability.pkl"] ∧
    ∀ n, Effect.fileWrite n ∉ (clfreport clfNotdevLoad).1 :=
  (clfreport_probability_pickle clfNotdevLoad).1 (by decide) (by decide)

/-- A `GridSearchCV` fit appears in the trace of `clfreport` exactly on the
`'yesdev'` path with `tune` set, and then with `cv=5`, `scoring='roc_auc'`
and `n_jobs=cores`. -/
theorem clfreport_fitGrid_mem (a : ClfArgs) (c : Nat) (s : String) (n : Nat)
    (hm : a.modeltype = "classification" ∨ a.modeltype = "regression") :
    (Effect.fitGrid c s n ∈ (clfreport a).1 ↔
      a.devcheck = "yesdev" ∧ a.tune = true ∧ c = 5 ∧ s = "roc_auc" ∧
        n = a.cores) := by
  unfold clfreport
  by_cases hd : a.devcheck = "yesdev"
  · rcases hm with hc | hr <;>
      [(have hr : a.modeltype ≠ "regression" := by rw [hc]; decide);
       (have hc : a.modeltype ≠ "classification" := by rw [hr]; decide)] <;>
      by_cases hb : a.debug <;> by_cases ht : a.tune <;>
        by_cases hfi : a.algoHasFI <;>
          simp_all [print_classification_metrics, print_regression_metrics,
            mean_squared_error, Except.map, write_feature_importances] <;>
          tauto
  · by_cases hn : a.devcheck = "notdev" <;>
      by_cases hu : a.use_saved_model <;> by_cases hb : a.debug <;>
        simp_all [load_pickle_file, save_object_as_pickle]

/-- A plain (non-grid) fit appears in the trace of `clfreport` exactly on the
`'yesdev'` path without tuning and on the `'notdev'` path without a saved
model. -/
theorem clfreport_fitPlain_mem (a : ClfArgs)
    (hm : a.modeltype = "classification" ∨ a.modeltype = "regression") :
    (Effect.fitPlain ∈ (clfreport a).1 ↔
      (a.devcheck = "yesdev" ∧ a.tune = false) ∨
      (a.devcheck = "notdev" ∧ a.use_saved_model = false)) := by
  unfold clfreport
  by_cases hd : a.devcheck = "yesdev"
  · have hn : a.devcheck ≠ "notdev" := by rw [hd]; decide
    rcases hm with hc | hr <;>
      [(have hr : a.modeltype ≠ "regression" := by rw [hc]; decide);
       (have hc : a.modeltype ≠ "classification" := by rw [hr]; decide)] <;>
      by_cases hb : a.debug <;> by_cases ht : a.tune <;>
        by_cases hfi : a.algoHasFI <;>
          simp_all [print_classification_metrics, print_regression_metrics,
            mean_squared_error, Except.map, write_feature_importances]
  · by_cases hn : a.devcheck = "notdev" <;>
      by_cases hu : a.use_saved_model <;> by_cases hb : a.debug <;>
        simp_all [load_pickle_file, save_object_as_pickle]

/-- C7 counterexample: at `devcheck='notdev'` with `use_saved_model=True`
(and `tune=False`), the supplied algo is NOT fitted at all — the whole trace
is the single pickle load — contradicting the claim that for
`devcheck='notdev'` (regardless of `tune`) the supplied algo is fitted
directly. -/
theorem clfreport_notdev_saved_no_fit :
    (clfreport clfNotdevLoad).1 = [Effect.fileRead "probability.pkl"] ∧
    Effect.fitPlain ∉ (clfreport clfNotdevLoad).1 := by
  constructor
  · rfl
  · decide

/-- C7 amended: for the two model types, a grid-search fit
(`GridSearchCV(algo, param, cv=5, scoring='roc_auc', n_jobs=cores)`) occurs
exactly when `devcheck='yesdev'` and `tune` is true; with `'yesdev'` and
`tune=False` the supplied algo is fitted directly; with `'notdev'` the
supplied algo is fitted directly only when `use_saved_model=False` — with
`use_saved_model=True` a saved model is loaded instead and nothing at all is
fitted. -/
theorem clfreport_grid_search_exactly (a : ClfArgs)
    (hm : a.modeltype = "classification" ∨ a.modeltype = "regression") :
    ((∃ c s n, Effect.fitGrid c s n ∈ (clfreport a).1) ↔
       a.devcheck = "yesdev" ∧ a.tune = true) ∧
    (a.devcheck = "yesdev" → a.tune = true →
       Effect.fitGrid 5 "roc_auc" a.cores ∈ (clfreport a).1) ∧
    (a.devcheck = "yesdev" → a.tune = false →
       Effect.fitPlain ∈ (clfreport a).1) ∧
    (a.devcheck = "notdev" → a.use_saved_model = false →
       Effect.fitPlain ∈ (clfreport a).1) ∧
    (a.devcheck = "notdev" → a.use_saved_model = true →
       Effect.fitPlain ∉ (clfreport a).1 ∧
       ∀ c s n, Effect.fitGrid c s n ∉ (clfreport a).1) := by
  refine ⟨?_, ?_, ?_, ?_, ?_⟩
  · constructor
    · rintro ⟨c, s, n, h⟩
      have := (clfreport_fitGrid_mem a c s n hm).1 h
      exact ⟨this.1, this.2.1⟩
    · rintro ⟨hd, ht⟩
      exact ⟨5, "roc_auc", a.cores, (clfreport_fitGrid_mem a 5 "roc_auc" a.cores hm).2
        ⟨hd, ht, rfl, rfl, rfl⟩⟩
  · intro hd ht
    exact (clfreport_fitGrid_mem a 5 "roc_auc" a.cores hm).2 ⟨hd, ht, rfl, rfl, rfl⟩
  · intro hd ht
    exact (clfreport_fitPlain_mem a hm).2 (Or.inl ⟨hd, ht⟩)
  · intro hd hu
    exact (clfreport_fitPlain_mem a hm).2 (Or.inr ⟨hd, hu⟩)
  · intro hd hu
    have hy : a.devcheck ≠ "yesdev" := by rw [hd]; decide
    constructor
    · intro h
      rcases (clfreport_fitPlain_mem a hm).1 h with ⟨h1, _⟩ | ⟨_, h2⟩
      · exact hy h1
      · rw [hu] at h2; exact absurd h2 (by decide)
    · intro c s n h
      have := (clfreport_fitGrid_mem a c s n hm).1 h
      exact hy this.1

/-- Witness for the amended C7 at concrete `'notdev'` saved-model
arguments. -/
theorem clfreport_grid_search_exactly_witness :
    Effect.fitPlain ∉ (clfreport clfNotdevLoad).1 ∧
    ∀ c s n, Effect.fitGrid c s n ∉ (clfreport clfNotdevLoad).1 :=
  (clfreport_grid_search_exactly clfNotdevLoad (Or.inl (by decide))).2.2.2.2
    (by decide) (by decide)

/-- C5 counterexample: a classification call with `use_saved_model=False`
fits the factor-ranking model but writes no pickle file at all — the
`save_object_as_pickle('factorlogit.pkl', clf)` call sits only on the
regression branch — contradicting the claim that the fitted model is saved
for both model types. -/
theorem ftf_classification_no_save :
    (find_top_three_factors ftfClassNoSave).1 = [Effect.fitPlain] ∧
    Effect.fileWrite "factorlogit.pkl" ∉ (find_top_three_factors ftfClassNoSave).1 := by
  constructor
  · rfl
  · decide

/-- C5 amended: with `use_saved_model=False` the fitted factor-ranking model
is saved under the fixed name `factorlogit.pkl` exactly when
`model_type='regression'` (the classification branch fits but saves nothing),
and nothing is read; with `use_saved_model=True` the model is loaded from
that same fixed name and nothing is written; `factorlogit.pkl` is the only
file name the function ever touches. -/
theorem ftf_factorlogit_pickle (a : FtfArgs) :
    (a.use_saved_model = false →
       ((Effect.fileWrite "factorlogit.pkl" ∈ (find_top_three_factors a).1) ↔
          a.model_type = "regression") ∧
       ∀ n, Effect.fileRead n ∉ (find_top_three_factors a).1) ∧
    (a.use_saved_model = true →
       Effect.fileRead "factorlogit.pkl" ∈ (find_top_three_factors a).1 ∧
       ∀ n, Effect.fileWrite n ∉ (find_top_three_factors a).1) ∧
    (∀ n, n ∈ fileNames (find_top_three_factors a).1 → n = "factorlogit.pkl") := by
  refine ⟨?_, ?_, ?_⟩
  · intro hu
    unfold find_top_three_factors
    by_cases hb : a.debug <;>
      by_cases hc : a.model_type = "classification" <;>
        by_cases hr : a.model_type = "regression" <;>
          simp_all [save_object_as_pickle, load_pickle_file]
  · intro hu
    unfold find_top_three_factors
    by_cases hb : a.debug <;> simp_all [load_pickle_file]
  · intro n hn
    unfold find_top_three_factors at hn
    by_cases hu : a.use_saved_model <;> by_cases hb : a.debug <;>
      by_cases hc : a.model_type = "classification" <;>
        by_cases hr : a.model_type = "regression" <;>
          simp_all [save_object_as_pickle, load_pickle_file, fileNames]

/-- Witness for the amended C5 at concrete classification arguments. -/
theorem ftf_factorlogit_pickle_witness :
    ((Effect.fileWrite "factorlogit.pkl" ∈ (find_top_three_factors ftfClassNoSave).1) ↔
       ftfClassNoSave.model_type = "regression") ∧
    ∀ n, Effect.fileRead n ∉ (find_top_three_factors ftfClassNoSave).1 :=
  (ftf_factorlogit_pickle ftfClassNoSave).1 (by decide)

/-- `firstMinIdx` stays within the list. -/
theorem firstMinIdx_lt : ∀ (l : List ℚ), 0 < l.length → firstMinIdx l < l.length
  | [], h => by simp at h
  | [_], _ => by simp [firstMinIdx]
  | x :: y :: ys, _ => by
    have ih := firstMinIdx_lt (y :: ys) (by simp)
    rw [firstMinIdx]
    show (if x ≤ (y :: ys).getD (firstMinIdx (y :: ys)) 0 then 0
      else firstMinIdx (y :: ys) + 1) < (x :: y :: ys).length
    split
    · simp
    · simpa using Nat.succ_lt_succ ih

/-- The entry at `firstMinIdx` is a minimum of the list. -/
theorem firstMinIdx_le : ∀ (l : List ℚ) (j : Nat), j < l.length →
    l.getD (firstMinIdx l) 0 ≤ l.getD j 0
  | [], j, h => by simp at h
  | [x], j, h => by
    have hj : j = 0 := by simpa using Nat.lt_one_iff.mp (by simpa using h)
    subst hj
    simp [firstMinIdx]
  | x :: y :: ys, j, h => by
    by_cases hx : x ≤ (y :: ys).getD (firstMinIdx (y :: ys)) 0
    · have hfix : firstMinIdx (x :: y :: ys) = 0 := by
        rw [firstMinIdx]
        show (if x ≤ (y :: ys).getD (firstMinIdx (y :: ys)) 0 then 0
          else firstMinIdx (y :: ys) + 1) = 0
        rw [if_pos hx]
      rw [hfix]
      match j with
      | 0 => simp
      | j' + 1 =>
        have hj' : j' < (y :: ys).length := by simpa using Nat.lt_of_succ_lt_succ h
        calc (x :: y :: ys).getD 0 0 = x := rfl
          _ ≤ (y :: ys).getD (firstMinIdx (y :: ys)) 0 := hx
          _ ≤ (y :: ys).getD j' 0 := firstMinIdx_le (y :: ys) j' hj'
          _ = (x :: y :: ys).getD (j' + 1) 0 := by simp
    · have hfix : firstMinIdx (x :: y :: ys) = firstMinIdx (y :: ys) + 1 := by
        rw [firstMinIdx]
        show (if x ≤ (y :: ys).getD (firstMinIdx (y :: ys)) 0 then 0
          else firstMinIdx (y :: ys) + 1) = firstMinIdx (y :: ys) + 1
        rw [if_neg hx]
      rw [hfix]
      have base : (x :: y :: ys).getD (firstMinIdx (y :: ys) + 1) 0 =
          (y :: ys).getD (firstMinIdx (y :: ys)) 0 := by simp
      match j with
      | 0 =>
        rw [base]
        exact le_of_lt (lt_of_not_le hx)
      | j' + 1 =>
        have hj' : j' < (y :: ys).length := by simpa using Nat.lt_of_succ_lt_succ h
        rw [base]
        simpa using firstMinIdx_le (y :: ys) j' hj'

/-- The entries of `rocDist`. -/
theorem rocDist_getD (fpr tpr : List ℚ) (j : Nat) (hjf : j < fpr.length)
    (hjt : j < tpr.length) :
    (rocDist fpr tpr).getD j 0 = (fpr.getD j 0) ^ 2 + (tpr.getD j 0 - 1) ^ 2 := by
  have hlen : j < (rocDist fpr tpr).length := by
    simp only [rocDist, List.length_zipWith]
    omega
  rw [List.getD_eq_getElem _ _ hlen, List.getD_eq_getElem _ _ hjf,
    List.getD_eq_getElem _ _ hjt]
  simp [rocDist, List.getElem_zipWith]

/-- C3: with equal-length inputs and `aucType='SS'`, the returned
`BestCutoff` is a threshold at which the squared distance
`(fpr - 0)^2 + (tpr - 1)^2` of the ROC point to the ideal point `(0, 1)` is
minimal over all thresholds of the ROC curve, and `BestTpr` / `BestFpr` are
the rates attained at that same threshold index. -/
theorem generateAUC_ss_best_cutoff (a : AucArgs)
    (hlen : a.predictions.length = a.labels.length)
    (ht : a.aucType = "SS")
    (h1 : a.rocTpr.length = a.rocFpr.length)
    (h2 : a.rocThresh.length = a.rocFpr.length)
    (hpos : 0 < a.rocFpr.length) :
    ∃ i, i < a.rocThresh.length ∧
      (generateAUC a).2 = .ok (AucRet.ss a.rocArea (a.rocThresh.getD i 0)
        (a.rocTpr.getD i 0) (a.rocFpr.getD i 0)) ∧
      ∀ j, j < a.rocThresh.length →
        (a.rocFpr.getD i 0) ^ 2 + (a.rocTpr.getD i 0 - 1) ^ 2 ≤
        (a.rocFpr.getD j 0) ^ 2 + (a.rocTpr.getD j 0 - 1) ^ 2 := by
  have hd : (rocDist a.rocFpr a.rocTpr).length = a.rocFpr.length := by
    simp only [rocDist, List.length_zipWith]
    omega
  have hi : firstMinIdx (rocDist a.rocFpr a.rocTpr) < a.rocFpr.length := by
    have := firstMinIdx_lt (rocDist a.rocFpr a.rocTpr) (by omega)
    omega
  refine ⟨firstMinIdx (rocDist a.rocFpr a.rocTpr), by omega, ?_, ?_⟩
  · have hSS : pyUpper "SS" = "SS" := by decide
    unfold generateAUC
    rw [ht]
    simp [hlen, hSS]
  · intro j hj
    have hjf : j < a.rocFpr.length := by omega
    have hjt : j < a.rocTpr.length := by omega
    have hmin := firstMinIdx_le (rocDist a.rocFpr a.rocTpr) j (by omega)
    rw [rocDist_getD _ _ j hjf hjt] at hmin
    rw [rocDist_getD _ _ _ hi (by omega)] at hmin
    exact hmin

/-- Witness for C3 at a concrete three-point ROC curve. -/
theorem generateAUC_ss_best_cutoff_witness :
    ∃ i, i < aucSS.rocThresh.length ∧
      (generateAUC aucSS).2 = .ok (AucRet.ss aucSS.rocArea (aucSS.rocThresh.getD i 0)
        (aucSS.rocTpr.getD i 0) (aucSS.rocFpr.getD i 0)) ∧
      ∀ j, j < aucSS.rocThresh.length →
        (aucSS.rocFpr.getD i 0) ^ 2 + (aucSS.rocTpr.getD i 0 - 1) ^ 2 ≤
        (aucSS.rocFpr.getD j 0) ^ 2 + (aucSS.rocTpr.getD j 0 - 1) ^ 2 :=
  generateAUC_ss_best_cutoff aucSS (by decide) (by decide) (by decide) (by decide)
    (by decide)

/-- `argsortDesc` is a permutation of the index range. -/
theorem argsortDesc_perm (v : List ℚ) :
    (argsortDesc v).Perm (List.range v.length) :=
  List.perm_insertionSort _ _

/-- `argsortDesc` has one entry per value. -/
theorem argsortDesc_length (v : List ℚ) : (argsortDesc v).length = v.length := by
  simpa using (argsortDesc_perm v).length_eq

/-- `argsortDesc` has no duplicate indices. -/
theorem argsortDesc_nodup (v : List ℚ) : (argsortDesc v).Nodup :=
  ((argsortDesc_perm v).nodup_iff).2 (List.nodup_range _)

/-- Every entry of `argsortDesc v` is an index into `v`. -/
theorem argsortDesc_mem (v : List ℚ) {i : Nat} (h : i ∈ argsortDesc v) :
    i < v.length := by
  have := (argsortDesc_perm v).mem_iff.1 h
  simpa using this

/-- `argsortDesc` lists indices in descending order of value. -/
theorem argsortDesc_sorted (v : List ℚ) :
    (argsortDesc v).Sorted (fun i j => v.getD j 0 ≤ v.getD i 0) := by
  haveI : IsTotal Nat (fun i j => v.getD j 0 ≤ v.getD i 0) :=
    ⟨fun a b => le_total _ _⟩
  haveI : IsTrans Nat (fun i j => v.getD j 0 ≤ v.getD i 0) :=
    ⟨fun a b c hab hbc => le_trans hbc hab⟩
  exact List.sorted_insertionSort _ _

/-- The index at position `k` of `argsortDesc v` dominates every index `j`
not already listed before position `k`. -/
theorem argsortDesc_topk (v : List ℚ) (k : Nat) (hk : k < v.length) (j : Nat)
    (hj : j < v.length) (hnot : ∀ t, t < k → (argsortDesc v).getD t 0 ≠ j) :
    v.getD j 0 ≤ v.getD ((argsortDesc v).getD k 0) 0 := by
  have hlen := argsortDesc_length v
  have hjmem : j ∈ argsortDesc v :=
    (argsortDesc_perm v).mem_iff.2 (by simpa using hj)
  obtain ⟨t, htlt, hteq⟩ := List.mem_iff_getElem.1 hjmem
  have hkle : k ≤ t := by
    by_contra hlt
    push_neg at hlt
    exact hnot t hlt (by rw [List.getD_eq_getElem _ _ htlt]; exact hteq)
  have hkl : k < (argsortDesc v).length := by omega
  rcases Nat.eq_or_lt_of_le hkle with heq | hlt
  · rw [List.getD_eq_getElem _ _ hkl]
    subst heq
    rw [hteq]
  · have hpair := List.pairwise_iff_getElem.1 (argsortDesc_sorted v) k t hkl htlt hlt
    rw [hteq] at hpair
    rw [List.getD_eq_getElem _ _ hkl]
    exact hpair

/-- C1: `find_top_three_factors` returns three lists, one entry per row of
`X_test`; and for every row `i` the entries of `first_fact`, `second_fact`
and `third_fact` are the names of columns attaining the largest,
second-largest and third-largest coefficient-weighted product
`X_test[i, j] * coef[j]` of that row, in descending order of that product
(ties broken by the sort, which leaves tie order unspecified in numpy). -/
theorem ftf_top_three (a : FtfArgs)
    (hc : a.cols.length = a.coef.length)
    (h3 : 3 ≤ a.coef.length)
    (hrow : ∀ row ∈ a.X_test, row.length = a.coef.length) :
    ((find_top_three_factors a).2.1.length = a.X_test.length ∧
     (find_top_three_factors a).2.2.1.length = a.X_test.length ∧
     (find_top_three_factors a).2.2.2.length = a.X_test.length) ∧
    ∀ i, i < a.X_test.length →
      ∃ j1 j2 j3, j1 < a.coef.length ∧ j2 < a.coef.length ∧ j3 < a.coef.length ∧
        j1 ≠ j2 ∧ j1 ≠ j3 ∧ j2 ≠ j3 ∧
        (find_top_three_factors a).2.1.getD i "" = a.cols.getD j1 "" ∧
        (find_top_three_factors a).2.2.1.getD i "" = a.cols.getD j2 "" ∧
        (find_top_three_factors a).2.2.2.getD i "" = a.cols.getD j3 "" ∧
        prodAt a i j2 ≤ prodAt a i j1 ∧ prodAt a i j3 ≤ prodAt a i j2 ∧
        (∀ j, j < a.coef.length → prodAt a i j ≤ prodAt a i j1) ∧
        (∀ j, j < a.coef.length → j ≠ j1 → prodAt a i j ≤ prodAt a i j2) ∧
        (∀ j, j < a.coef.length → j ≠ j1 → j ≠ j2 →
          prodAt a i j ≤ prodAt a i j3) := by
  have hout1 : (find_top_three_factors a).2.1 =
      (a.X_test.map fun row => List.zipWith (· * ·) row a.coef).map
        (fun r => a.cols.getD ((argsortDesc r).getD 0 0) "") := rfl
  have hout2 : (find_top_three_factors a).2.2.1 =
      (a.X_test.map fun row => List.zipWith (· * ·) row a.coef).map
        (fun r => a.cols.getD ((argsortDesc r).getD 1 0) "") := rfl
  have hout3 : (find_top_three_factors a).2.2.2 =
      (a.X_test.map fun row => List.zipWith (· * ·) row a.coef).map
        (fun r => a.cols.getD ((argsortDesc r).getD 2 0) "") := rfl
  refine ⟨⟨by rw [hout1]; simp, by rw [hout2]; simp, by rw [hout3]; simp⟩, ?_⟩
  intro i hi
  have hmem : a.X_test.getD i [] ∈ a.X_test := by
    rw [List.getD_eq_getElem _ _ hi]
    exact List.getElem_mem hi
  have hrl : (a.X_test.getD i []).length = a.coef.length := hrow _ hmem
  set r : List ℚ := List.zipWith (· * ·) (a.X_test.getD i []) a.coef with hrdef
  have hr_len : r.length = a.coef.length := by
    rw [hrdef]
    simp only [List.length_zipWith, hrl, Nat.min_self]
  have hs_len : (argsortDesc r).length = a.coef.length := by
    rw [argsortDesc_length]; exact hr_len
  have hsb : ∀ k, k < 3 → (argsortDesc r).getD k 0 < a.coef.length := by
    intro k hk
    have hkl : k < (argsortDesc r).length := by omega
    rw [List.getD_eq_getElem _ _ hkl]
    have := argsortDesc_mem r (List.getElem_mem hkl)
    omega
  have hprod : ∀ j, j < a.coef.length → r.getD j 0 = prodAt a i j := by
    intro j hj
    have hjr : j < r.length := by omega
    have hjrow : j < (a.X_test.getD i []).length := by omega
    have hjz : j < (List.zipWith (· * ·) (a.X_test.getD i []) a.coef).length := by
      rw [← hrdef]; omega
    unfold prodAt
    rw [hrdef]
    rw [List.getD_eq_getElem _ _ hjz, List.getD_eq_getElem _ _ hjrow,
      List.getD_eq_getElem _ _ hj]
    simp [List.getElem_zipWith]
  have hdistinct : ∀ k l : Nat, k < 3 → l < 3 → k ≠ l →
      (argsortDesc r).getD k 0 ≠ (argsortDesc r).getD l 0 := by
    intro k l hk hl hkl
    have hkl' : k < (argsortDesc r).length := by omega
    have hll : l < (argsortDesc r).length := by omega
    rw [List.getD_eq_getElem _ _ hkl', List.getD_eq_getElem _ _ hll]
    intro hcon
    exact hkl (((argsortDesc_nodup r).getElem_inj_iff).1 hcon)
  have htop : ∀ k, k < 3 → ∀ j, j < a.coef.length →
      (∀ t, t < k → (argsortDesc r).getD t 0 ≠ j) →
      prodAt a i j ≤ prodAt a i ((argsortDesc r).getD k 0) := by
    intro k hk j hj hnot
    have := argsortDesc_topk r k (by omega) j (by omega) hnot
    rw [hprod j hj, hprod _ (hsb k hk)] at this
    exact this
  have hget : ∀ k, (((a.X_test.map fun row => List.zipWith (· * ·) row a.coef).map
      (fun s => a.cols.getD ((argsortDesc s).getD k 0) "")).getD i "" =
        a.cols.getD ((argsortDesc r).getD k 0) "") := by
    intro k
    have him : i < ((a.X_test.map fun row =>
        List.zipWith (· * ·) row a.coef).map
          (fun s => a.cols.getD ((argsortDesc s).getD k 0) "")).length := by
      simpa using hi
    rw [List.getD_eq_getElem _ _ him, List.getElem_map, List.getElem_map]
    rw [hrdef, List.getD_eq_getElem _ _ hi]
  refine ⟨(argsortDesc r).getD 0 0, (argsortDesc r).getD 1 0,
    (argsortDesc r).getD 2 0,
    hsb 0 (by omega), hsb 1 (by omega), hsb 2 (by omega),
    hdistinct 0 1 (by omega) (by omega) (by omega),
    hdistinct 0 2 (by omega) (by omega) (by omega),
    hdistinct 1 2 (by omega) (by omega) (by omega),
    by rw [hout1]; exact hget 0, by rw [hout2]; exact hget 1,
    by rw [hout3]; exact hget 2, ?_, ?_, ?_, ?_, ?_⟩
  · exact htop 0 (by omega) _ (hsb 1 (by omega)) (by omega)
  · refine htop 1 (by omega) _ (hsb 2 (by omega)) ?_
    intro t ht
    have : t = 0 := by omega
    subst this
    exact hdistinct 0 2 (by omega) (by omega) (by omega)
  · intro j hj
    exact htop 0 (by omega) j hj (by omega)
  · intro j hj hne
    refine htop 1 (by omega) j hj ?_
    intro t ht
    have : t = 0 := by omega
    subst this
    exact fun hcon => hne hcon.symm
  · intro j hj hne1 hne2
    refine htop 2 (by omega) j hj ?_
    intro t ht
    interval_cases t
    · exact fun hcon => hne1 hcon.symm
    · exact fun hcon => hne2 hcon.symm

/-- Witness for C1 at a one-row, three-column input. -/
theorem ftf_top_three_witness :
    (((find_top_three_factors ftfClassNoSave).2.1.length =
        ftfClassNoSave.X_test.length ∧
      (find_top_three_factors ftfClassNoSave).2.2.1.length =
        ftfClassNoSave.X_test.length ∧
      (find_top_three_factors ftfClassNoSave).2.2.2.length =
        ftfClassNoSave.X_test.length) ∧
     ∀ i, i < ftfClassNoSave.X_test.length →
      ∃ j1 j2 j3, j1 < ftfClassNoSave.coef.length ∧
        j2 < ftfClassNoSave.coef.length ∧ j3 < ftfClassNoSave.coef.length ∧
        j1 ≠ j2 ∧ j1 ≠ j3 ∧ j2 ≠ j3 ∧
        (find_top_three_factors ftfClassNoSave).2.1.getD i "" =
          ftfClassNoSave.cols.getD j1 "" ∧
        (find_top_three_factors ftfClassNoSave).2.2.1.getD i "" =
          ftfClassNoSave.cols.getD j2 "" ∧
        (find_top_three_factors ftfClassNoSave).2.2.2.getD i "" =
          ftfClassNoSave.cols.getD j3 "" ∧
        prodAt ftfClassNoSave i j2 ≤ prodAt ftfClassNoSave i j1 ∧
        prodAt ftfClassNoSave i j3 ≤ prodAt ftfClassNoSave i j2 ∧
        (∀ j, j < ftfClassNoSave.coef.length →
          prodAt ftfClassNoSave i j ≤ prodAt ftfClassNoSave i j1) ∧
        (∀ j, j < ftfClassNoSave.coef.length → j ≠ j1 →
          prodAt ftfClassNoSave i j ≤ prodAt ftfClassNoSave i j2) ∧
        (∀ j, j < ftfClassNoSave.coef.length → j ≠ j1 → j ≠ j2 →
          prodAt ftfClassNoSave i j ≤ prodAt ftfClassNoSave i j3)) :=
  ftf_top_three ftfClassNoSave (by decide) (by decide) (by decide)

end ModelEval
